import Mathlib

/-!
Verification of the DTED tile decoder and spatial container of panoramaMaker
(src/tile.c), as a shallow embedding in Lean.

Machine integers are embedded as Nat/Int with explicit reductions modulo
powers of two where the C code truncates.  A DTED file is embedded as its
byte length together with a map from byte offsets to byte values; doubles
are embedded as rationals (the operations used on them, comparison with
zero and truncation toward zero, agree with their rational readings).
-/

/-- Modelled from the spec: tile.h is not under src/.  Fixed byte offset of
the 4-character latitude point count field ("fixed header offset A"); the
concrete value is immaterial to every claim. -/
def DTED_DSI_NBLAT : Nat := 361

/-- Modelled from the spec: tile.h is not under src/.  Fixed byte offset of
the 4-character longitude point count field ("fixed header offset B"). -/
def DTED_DSI_NBLON : Nat := 365

/-- Modelled from the spec: tile.h is not under src/.  Fixed byte offset of
the 2-character data coverage field ("fixed header offset C"). -/
def DTED_DSI_DATACOV : Nat := 369

/-- Modelled from the spec: tile.h is not under src/.  Start offset of the
elevation data section ("fixed start offset D"); tile.c itself seeks to the
literal 3428 before the data loop, so the constant is pinned to 3428. -/
def DTED_DATA : Nat := 3428

/-- A DTED file as seen through fopen/fseek/fread/ftell: its total byte
length and the byte stored at each offset. -/
structure DtedFile where
  size : Nat
  byte : Nat → Fin 256

/-- A header byte as the C code sees it after fread into a char buffer,
promoted to int by the arithmetic (tile.c lines 70, 74, 89). -/
def readByte (f : DtedFile) (off : Nat) : Int := ((f.byte off : Nat) : Int)

/-- Decoding of a 4-character header field, tile.c lines 70-71 and 74-75:
1000*(c0-48) + 100*(c1-48) + 10*(c2-48) + (c3-48), with no validation. -/
def decode4 (c0 c1 c2 c3 : Int) : Int :=
  1000 * (c0 - 48) + 100 * (c1 - 48) + 10 * (c2 - 48) + (c3 - 48)

/-- Decoding of the 2-character coverage field, tile.c line 89. -/
def decode2 (c0 c1 : Int) : Int := 10 * (c0 - 48) + (c1 - 48)

/-- The latitude point count nbLat read by openTile (tile.c lines 68-71). -/
def nbLatOf (f : DtedFile) : Int :=
  decode4 (readByte f DTED_DSI_NBLAT) (readByte f (DTED_DSI_NBLAT + 1))
    (readByte f (DTED_DSI_NBLAT + 2)) (readByte f (DTED_DSI_NBLAT + 3))

/-- The longitude point count nbLon read by openTile (tile.c lines 72-75). -/
def nbLonOf (f : DtedFile) : Int :=
  decode4 (readByte f DTED_DSI_NBLON) (readByte f (DTED_DSI_NBLON + 1))
    (readByte f (DTED_DSI_NBLON + 2)) (readByte f (DTED_DSI_NBLON + 3))

/-- The expected file size computed by openTile, tile.c line 81:
DTED_DATA + (nbLat * 2 + 12) * nbLon. -/
def expectedSize (nbLat nbLon : Int) : Int := DTED_DATA + (nbLat * 2 + 12) * nbLon

/-- The coverage value computed by openTile, tile.c lines 89-90: the decoded
2-digit value, with 0 replaced by 100 (C truthiness test, coverage kept
whenever it is nonzero). -/
def coverageVal (c0 c1 : Int) : Int :=
  let c := decode2 c0 c1
  if c ≠ 0 then c else 100

/-- The coverage openTile reports for a file (tile.c lines 87-90). -/
def coverageOf (f : DtedFile) : Int :=
  coverageVal (readByte f DTED_DSI_DATACOV) (readByte f (DTED_DSI_DATACOV + 1))

/-- The elevation sample codec, tile.c lines 27-32.  The argument is the
16-bit bit pattern held in the int16_t x.  Line 29 computes
((uint16_t)x >> 8) | ((uint16_t)x << 8) in int arithmetic and truncates to
16 bits on assignment, giving the swapped pattern s.  On line 30 the test
x & 0x8000 (on the int promotion of the swapped int16_t) is nonzero exactly
when bit 15 of s is set, and x & 0x7FFF equals the low 15 bits of s, since
sign extension preserves bits 0-14; the branch yields -1 * (s & 0x7FFF),
otherwise the (nonnegative) swapped value itself. -/
def toLittleEndian (raw : Nat) : Int :=
  let s : Nat := ((raw >>> 8) ||| (raw <<< 8)) % 65536
  if s &&& 0x8000 ≠ 0 then -(Int.ofNat (s &&& 0x7FFF)) else Int.ofNat s

/-- The 16-bit value deposited by fread(&tile->data[pt], 2, 1, dtedFile) at
byte offset off on a little-endian host: the byte at the lower offset lands
in the low-order octet (tile.c line 113). -/
def fread16 (f : DtedFile) (off : Nat) : Nat :=
  (f.byte off : Nat) + 256 * (f.byte (off + 1) : Nat)

/-- Byte offset of the sample read at outer index i, inner index j: the data
loop seeks to 3428, then for each longitude record skips 8 header bytes,
reads nbLat 2-byte samples and skips 4 checksum bytes (tile.c lines
106-117). -/
def samplePos (nbLat i j : Nat) : Nat :=
  3428 + i * (8 + 2 * nbLat + 4) + 8 + 2 * j

/-- The flattened store index pt = i * nbLon + j computed at tile.c line
112, where i is the longitude index and j the latitude index. -/
def storeIndex (nbLon i j : Nat) : Nat := i * nbLon + j

/-- Every store index the data loop uses, in loop order (outer i over
longitudes, inner j over latitudes). -/
def storeIndices (nbLat nbLon : Nat) : List Nat :=
  (List.range nbLon).flatMap fun i => (List.range nbLat).map fun j => storeIndex nbLon i j

/-- The decoded sample buffer built by the data loop, tile.c lines 98 and
107-117: a buffer of nbLat * nbLon elements (malloc leaves cells
unspecified; the model starts them at 0), written at index
storeIndex nbLon i j.  A store whose index falls outside the buffer is
undefined behaviour in C; List.set leaves the list unchanged there, and the
bounds question is settled separately through storeIndices. -/
def tileData (f : DtedFile) (nbLat nbLon : Nat) : List Int :=
  (List.range nbLon).foldl
    (fun d i =>
      (List.range nbLat).foldl
        (fun d j => d.set (storeIndex nbLon i j)
          (toLittleEndian (fread16 f (samplePos nbLat i j)))) d)
    (List.replicate (nbLat * nbLon) 0)

/-- The decoded tile (struct Tile of the missing tile.h, as used by
tile.c lines 104-105 and 98). -/
structure Tile where
  latitudeDimension : Int
  longitudeDimension : Int
  data : List Int
deriving DecidableEq

/-- The decode error taxonomy of the spec (section 7). -/
inductive DecodeError where
  | fileOpenError : DecodeError
  | sizeMismatchError (expected actual : Int) : DecodeError
  | allocationError : DecodeError
deriving DecidableEq

/-- Modelled from the spec: openTile on an already-opened file, together
with whether the fclose at tile.c line 119 executed.  errPrintf (error.h,
not under src/) is modelled from the spec, which states that the error
reporting path terminates the process directly from inside the parsing
logic; a path through errPrintf therefore never reaches the fclose at the
end of openTile and is embedded as an error result with the close flag
false.  Allocation (tile.c lines 94-101) is modelled as succeeding; an
allocation failure takes the same errPrintf exit. -/
def openTileRun (f : DtedFile) : Except DecodeError Tile × Bool :=
  let nbLat := nbLatOf f
  let nbLon := nbLonOf f
  let expected := expectedSize nbLat nbLon
  if (f.size : Int) ≠ expected then
    (Except.error (DecodeError.sizeMismatchError expected (f.size : Int)), false)
  else
    (Except.ok { latitudeDimension := nbLat, longitudeDimension := nbLon,
                 data := tileData f nbLat.toNat nbLon.toNat }, true)

/-- The result of openTile (tile.c lines 51-121) on an already-opened
file. -/
def openTile (f : DtedFile) : Except DecodeError Tile := (openTileRun f).1

/-- Truncation of a rational toward zero, the behaviour of the C cast
(int) on the doubles originLon and originLat (tile.c lines 152, 154). -/
def ctrunc (q : ℚ) : Int := q.num.tdiv (q.den : Int)

/-- The degree magnitude rule of tile.c lines 152-155: truncate toward
zero, keep a positive result, otherwise take -(d - 1). -/
def degreeOf (q : ℚ) : Int :=
  let d := ctrunc q
  if d > 0 then d else -(d - 1)

/-- The latitude hemisphere letter, tile.c line 151. -/
def hemiLat (q : ℚ) : Char := if q > 0 then 'n' else 's'

/-- The longitude hemisphere letter, tile.c line 150. -/
def hemiLon (q : ℚ) : Char := if q > 0 then 'e' else 'w'

/-- Zero-padded decimal rendering, the sprintf conversions %02d and %03d of
tile.c line 156 for the values produced by degreeOf, which are always
positive. -/
def zeroPad (w : Nat) (n : Int) : String :=
  let s := toString n.toNat
  if s.length < w then String.mk (List.replicate (w - s.length) '0') ++ s else s

/-- The DTED filename built at tile.c lines 150-157; DATA_DIR (from the
missing tile.h) is the dataDir argument. -/
def tileFileName (dataDir : String) (lon lat : ℚ) : String :=
  dataDir ++ (String.singleton (hemiLat lat) ++ zeroPad 2 (degreeOf lat) ++ "_"
    ++ String.singleton (hemiLon lon) ++ zeroPad 3 (degreeOf lon) ++ "_1arc_v3.dt2")

/-- The spatial container (struct Space of the missing tile.h, as used by
tile.c lines 141-160). -/
structure Space where
  originLon : ℚ
  originLat : ℚ
  tiles : List (Option Tile)
deriving DecidableEq

/-- Modelled from the spec: initSpace, tile.c lines 131-161.  SIZE_SPACE
(missing tile.h, "a compile-time constant grid size") is the sizeSpace
argument and the file system is the map fs from filenames to files.  The
code zeroes all slots (line 147) and assigns openTile to the center slot
SIZE_SPACE / 2 (line 158); since a decode failure terminates the operation
through errPrintf, it is embedded as an error result with no Space.  The
malloc of the Space itself is modelled as succeeding. -/
def initSpace (sizeSpace : Nat) (fs : String → DtedFile) (dataDir : String)
    (lon lat : ℚ) : Except DecodeError Space :=
  match openTile (fs (tileFileName dataDir lon lat)) with
  | Except.error e => Except.error e
  | Except.ok t =>
      Except.ok { originLon := lon, originLat := lat,
                  tiles := (List.replicate sizeSpace (none : Option Tile)).set
                    (sizeSpace / 2) (some t) }

/-- Modelled from the spec: the inverse byte-swap/sign-magnitude transform
encode_like_disk of spec section 8: write x as sign-magnitude in 16 bits
(bit 15 the sign, bits 0-14 the magnitude) and swap the two octets back to
disk order. -/
def encodeLikeDisk (x : Int) : Nat :=
  let sm : Nat := if x < 0 then 32768 + (-x).toNat % 32768 else x.toNat % 32768
  sm % 256 * 256 + sm / 256

/-- Disjoint bitwise or is addition. -/
theorem or_eq_add_of_and_eq_zero : ∀ a b : Nat, a &&& b = 0 → a ||| b = a + b := by
  intro a
  induction a using Nat.strong_induction_on with
  | _ a ih =>
    intro b hab
    rcases Nat.eq_zero_or_pos a with rfl | ha
    · simp
    · have h2 : a / 2 &&& b / 2 = 0 := by
        rw [← Nat.and_div_two, hab]
      have ihh := ih (a / 2) (by omega) (b / 2) h2
      have hor2 : (a ||| b) / 2 = a / 2 + b / 2 := by rw [Nat.or_div_two, ihh]
      have hA : ¬ ((a &&& b) % 2 = 1) := by rw [hab]; decide
      rw [Nat.and_mod_two_eq_one] at hA
      have hO : (a ||| b) % 2 = 1 ↔ a % 2 = 1 ∨ b % 2 = 1 := Nat.or_mod_two_eq_one
      have e1 := Nat.div_add_mod (a ||| b) 2
      have e2 := Nat.div_add_mod a 2
      have e3 := Nat.div_add_mod b 2
      omega

/-- A value below 256 shares no set bit with a multiple of 256. -/
theorem and_mul_256_eq_zero (a k : Nat) (ha : a < 256) : a &&& 256 * k = 0 := by
  apply Nat.eq_of_testBit_eq
  intro i
  rw [Nat.testBit_and, Nat.zero_testBit]
  have hk : (256 : Nat) * k = k <<< 8 := by
    rw [Nat.shiftLeft_eq]
    norm_num [Nat.mul_comm]
  rw [hk, Nat.testBit_shiftLeft]
  by_cases hi : i < 8
  · have hni : ¬ i ≥ 8 := by omega
    simp [hni]
  · have hfa : a.testBit i = false := Nat.testBit_lt_two_pow (by
      calc a < 256 := ha
        _ = 2 ^ 8 := by norm_num
        _ ≤ 2 ^ i := Nat.pow_le_pow_right (by norm_num) (by omega))
    simp [hfa]

/-- The byte swap of tile.c line 29, characterised arithmetically: for a
16-bit pattern it exchanges the two octets. -/
theorem swap_arith (raw : Nat) (h : raw < 65536) :
    ((raw >>> 8) ||| (raw <<< 8)) % 65536 = raw % 256 * 256 + raw / 256 := by
  have h1 : raw >>> 8 = raw / 256 := by
    rw [Nat.shiftRight_eq_div_pow]
  have h2 : raw <<< 8 = 256 * raw := by
    rw [Nat.shiftLeft_eq]
    norm_num [Nat.mul_comm]
  have hd : raw / 256 &&& 256 * raw = 0 := and_mul_256_eq_zero _ _ (by omega)
  rw [h1, h2, or_eq_add_of_and_eq_zero _ _ hd]
  omega

/-- For a 16-bit pattern, the sign test of tile.c line 30 fires exactly on
values with bit 15 set, that is on values of at least 32768. -/
theorem and_32768_ne_zero_iff (s : Nat) (hs : s < 65536) : s &&& 32768 ≠ 0 ↔ 32768 ≤ s := by
  rw [show (32768 : Nat) = 2 ^ 15 by norm_num, Nat.and_two_pow, Nat.testBit_to_div_mod,
    show (2 : Nat) ^ 15 = 32768 by norm_num]
  have key : s / 32768 % 2 = 1 ↔ 32768 ≤ s := by omega
  by_cases hd : s / 32768 % 2 = 1
  · simp [hd, key.mp hd]
  · have hn : ¬ 32768 ≤ s := fun hge => hd (key.mpr hge)
    simp [hd, hn]

/-- The low 15 bits extracted at tile.c line 30 are the value modulo
32768. -/
theorem and_32767_eq_mod (s : Nat) : s &&& 32767 = s % 32768 := by
  rw [show (32767 : Nat) = 2 ^ 15 - 1 by norm_num]
  exact Nat.and_pow_two_sub_one_eq_mod s 15

/-- The codec in purely arithmetic terms: octet swap, then sign-magnitude
reading of the swapped 16-bit value. -/
theorem toLittleEndian_arith (raw : Nat) (h : raw < 65536) :
    toLittleEndian raw =
      (if 32768 ≤ raw % 256 * 256 + raw / 256
       then -(((raw % 256 * 256 + raw / 256) % 32768 : Nat) : Int)
       else ((raw % 256 * 256 + raw / 256 : Nat) : Int)) := by
  have hs := swap_arith raw h
  have hlt : raw % 256 * 256 + raw / 256 < 65536 := by omega
  simp only [toLittleEndian, hs]
  by_cases hb : 32768 ≤ raw % 256 * 256 + raw / 256
  · rw [if_pos ((and_32768_ne_zero_iff _ hlt).mpr hb), if_pos hb, and_32767_eq_mod]
    rfl
  · rw [if_neg (fun hc => hb ((and_32768_ne_zero_iff _ hlt).mp hc)), if_neg hb]
    rfl

/-- Claim C2: on any 16-bit raw input the codec first swaps the two octets
and then, if bit 15 of the swapped value is set, returns the negation of
the low 15 bits of the swapped value, otherwise the swapped value
unchanged; it is total on all 16-bit inputs. -/
theorem c2_codec_swap_then_sign_magnitude (raw : Nat) (h : raw < 65536) :
    toLittleEndian raw =
      (if (raw % 256 * 256 + raw / 256).testBit 15
       then -(((raw % 256 * 256 + raw / 256) % 32768 : Nat) : Int)
       else ((raw % 256 * 256 + raw / 256 : Nat) : Int)) := by
  rw [toLittleEndian_arith raw h]
  have hlt : raw % 256 * 256 + raw / 256 < 65536 := by omega
  have ht : (raw % 256 * 256 + raw / 256).testBit 15 = true ↔
      32768 ≤ raw % 256 * 256 + raw / 256 := by
    obtain ⟨s, hseq⟩ : ∃ s, raw % 256 * 256 + raw / 256 = s := ⟨_, rfl⟩
    rw [hseq, Nat.testBit_to_div_mod, show (2 : Nat) ^ 15 = 32768 by norm_num]
    simp only [decide_eq_true_eq]
    have hs2 : s < 65536 := by omega
    clear hseq
    omega
  by_cases hb : 32768 ≤ raw % 256 * 256 + raw / 256
  · rw [if_pos hb, if_pos (ht.mpr hb)]
  · rw [if_neg hb, if_neg (fun hc => hb (ht.mp hc))]

/-- Witness for claim C2 at the raw input 0x6480 (the on-disk pattern of
-100): the hypothesis holds and the codec follows the swap-then-sign rule
there. -/
theorem c2_codec_swap_then_sign_magnitude_witness :
    25728 < 65536 ∧
    toLittleEndian 25728 =
      (if ((25728 : Nat) % 256 * 256 + 25728 / 256).testBit 15
       then -((((25728 : Nat) % 256 * 256 + 25728 / 256) % 32768 : Nat) : Int)
       else (((25728 : Nat) % 256 * 256 + 25728 / 256 : Nat) : Int)) :=
  ⟨by decide, c2_codec_swap_then_sign_magnitude 25728 (by decide)⟩

/-- Claim C10: on every 16-bit raw input the codec output lies in
[-32767, 32767] (so -32768 is never returned), and the raw inputs whose
swapped values are 0x8000 (raw 128) and 0x0000 (raw 0) both decode to 0,
so the codec is not injective. -/
theorem c10_codec_range_and_negative_zero :
    (∀ raw : Nat, raw < 65536 →
        -32767 ≤ toLittleEndian raw ∧ toLittleEndian raw ≤ 32767) ∧
    toLittleEndian 128 = 0 ∧ toLittleEndian 0 = 0 ∧ (128 : Nat) ≠ 0 := by
  refine ⟨?_, by decide, by decide, by decide⟩
  intro raw h
  rw [toLittleEndian_arith raw h]
  by_cases hb : 32768 ≤ raw % 256 * 256 + raw / 256
  · rw [if_pos hb]
    omega
  · rw [if_neg hb]
    omega

/-- Witness for claim C10 at raw input 40000. -/
theorem c10_codec_range_witness :
    40000 < 65536 ∧ -32767 ≤ toLittleEndian 40000 ∧ toLittleEndian 40000 ≤ 32767 :=
  ⟨by decide, (c10_codec_range_and_negative_zero.1 40000 (by decide)).1,
    (c10_codec_range_and_negative_zero.1 40000 (by decide)).2⟩

/-- The octet swap is an involution on 16-bit patterns. -/
theorem swap_swap (sm : Nat) (h : sm < 65536) :
    (sm % 256 * 256 + sm / 256) % 256 * 256 + (sm % 256 * 256 + sm / 256) / 256 = sm := by
  omega

/-- Claim C4, counterexample: the claim quantifies over all 16-bit inputs,
but at x = -32768 the round trip fails; the encoded pattern decodes to 0,
not -32768 (the codec never outputs -32768). -/
theorem c4_counterexample_minus_32768 :
    toLittleEndian (encodeLikeDisk (-32768)) = 0 ∧ (0 : Int) ≠ -32768 := by
  decide

/-- Claim C4 (amended): for every x representable in 16-bit sign-magnitude,
that is -32767 ≤ x ≤ 32767, decoding the on-disk encoding of x returns x;
in particular the disk patterns of +100 and -100 decode to +100 and
-100. -/
theorem c4_roundtrip (x : Int) (h1 : -32767 ≤ x) (h2 : x ≤ 32767) :
    toLittleEndian (encodeLikeDisk x) = x := by
  simp only [encodeLikeDisk]
  by_cases hneg : x < 0
  · simp only [if_pos hneg]
    have ht : (-x).toNat % 32768 = (-x).toNat := Nat.mod_eq_of_lt (by omega)
    rw [ht]
    set sm : Nat := 32768 + (-x).toNat with hsm
    have hsm2 : sm < 65536 := by omega
    have hraw : sm % 256 * 256 + sm / 256 < 65536 := by omega
    rw [toLittleEndian_arith _ hraw, swap_swap sm hsm2]
    rw [if_pos (by omega : 32768 ≤ sm)]
    omega
  · simp only [if_neg hneg]
    have ht : x.toNat % 32768 = x.toNat := Nat.mod_eq_of_lt (by omega)
    rw [ht]
    set sm : Nat := x.toNat with hsm
    have hsm2 : sm < 65536 := by omega
    have hraw : sm % 256 * 256 + sm / 256 < 65536 := by omega
    rw [toLittleEndian_arith _ hraw, swap_swap sm hsm2]
    rw [if_neg (by omega : ¬ 32768 ≤ sm)]
    omega

/-- Witness for claim C4 at x = -100: the hypotheses hold and the round
trip returns -100. -/
theorem c4_roundtrip_witness :
    (-32767 : Int) ≤ -100 ∧ (-100 : Int) ≤ 32767 ∧
    toLittleEndian (encodeLikeDisk (-100)) = -100 :=
  ⟨by decide, by decide, c4_roundtrip (-100) (by decide) (by decide)⟩

/-- Claim C9: each 4-character dimension field decodes as the sum of
(digit - 48) times the power of ten of its place, with no further
validation; the bytes of "0121" give 121 and those of "9999" give 9999. -/
theorem c9_dimension_decoding :
    (∀ c0 c1 c2 c3 : Int, decode4 c0 c1 c2 c3 =
        (c0 - 48) * 10 ^ 3 + (c1 - 48) * 10 ^ 2 + (c2 - 48) * 10 ^ 1 + (c3 - 48) * 10 ^ 0) ∧
    decode4 48 49 50 49 = 121 ∧ decode4 57 57 57 57 = 9999 := by
  refine ⟨?_, by decide, by decide⟩
  intro c0 c1 c2 c3
  simp only [decode4]
  ring

/-- Claim C8: the 2-character coverage field decodes as a 2-digit base-10
integer and a decoded 0 is mapped to 100; the bytes of "00" give 100 and
those of "37" give 37. -/
theorem c8_coverage_decoding :
    (∀ c0 c1 : Int, coverageVal c0 c1 =
        if decode2 c0 c1 = 0 then 100 else decode2 c0 c1) ∧
    coverageVal 48 48 = 100 ∧ coverageVal 51 55 = 37 := by
  refine ⟨?_, by decide, by decide⟩
  intro c0 c1
  simp only [coverageVal]
  by_cases hz : decode2 c0 c1 = 0
  · rw [if_neg (fun hc => hc hz), if_pos hz]
  · rw [if_pos hz, if_neg hz]

/-- A header whose latitude and longitude point count fields both read
"0001", every other byte the digit zero. -/
def headerByte (o : Nat) : Fin 256 :=
  if o = DTED_DSI_NBLAT + 3 then 49 else if o = DTED_DSI_NBLON + 3 then 49 else 48

/-- A 1-by-1 file of the correct length: 3428 + (1 * 2 + 12) * 1 bytes. -/
def goodFile : DtedFile := { size := 3442, byte := headerByte }

/-- The same file one byte longer than its header demands. -/
def badFile : DtedFile := { size := 3443, byte := headerByte }

/-- Claim C3: openTile computes the expected size as
DTED_DATA + (nbLat * 2 + 12) * nbLon; a file of exactly that length passes
the size check and decodes, and a file of any other length fails with a
size mismatch error carrying that expected size, and no tile. -/
theorem c3_size_check (f : DtedFile) :
    expectedSize (nbLatOf f) (nbLonOf f) =
        DTED_DATA + (nbLatOf f * 2 + 12) * nbLonOf f ∧
    ((f.size : Int) = expectedSize (nbLatOf f) (nbLonOf f) →
      ∃ t, openTile f = Except.ok t) ∧
    ((f.size : Int) ≠ expectedSize (nbLatOf f) (nbLonOf f) →
      openTile f = Except.error
        (DecodeError.sizeMismatchError (expectedSize (nbLatOf f) (nbLonOf f))
          (f.size : Int))) := by
  refine ⟨rfl, ?_, ?_⟩ <;> intro h <;>
    simp only [openTile, openTileRun, if_pos, if_neg, h] <;> simp [h]

/-- Witness for claim C3: the 1-by-1 file of the exact expected length 3442
decodes, and the same file one byte longer fails with the mismatch error
naming 3442 and 3443. -/
theorem c3_size_check_witness :
    ((goodFile.size : Int) = expectedSize (nbLatOf goodFile) (nbLonOf goodFile)) ∧
    (∃ t, openTile goodFile = Except.ok t) ∧
    ((badFile.size : Int) ≠ expectedSize (nbLatOf badFile) (nbLonOf badFile)) ∧
    openTile badFile = Except.error
      (DecodeError.sizeMismatchError (expectedSize (nbLatOf badFile) (nbLonOf badFile))
        (badFile.size : Int)) :=
  ⟨by decide, (c3_size_check goodFile).2.1 (by decide), by decide,
    (c3_size_check badFile).2.2 (by decide)⟩

/-- A file of no content, enough to drive the data loop of tileData. -/
def emptyFile : DtedFile := { size := 0, byte := fun _ => 0 }

/-- Claim C1, evaluation at the failing input: with latitudeDimension L = 1
and longitudeDimension N = 2 the buffer indeed has L * N = 2 elements, but
the data loop performs the store pt = storeIndex N i j = 1 * 2 + 0 = 2 at
outer index i = 1, inner index j = 0, and 2 does not lie strictly within
the bounds of the 2-element buffer. -/
theorem c1_store_escapes_buffer :
    (tileData emptyFile 1 2).length = 1 * 2 ∧
    storeIndex 2 1 0 ∈ storeIndices 1 2 ∧
    ¬ storeIndex 2 1 0 < 1 * 2 := by
  decide

/-- Claim C5: createSpace derives the DTED filename from the origin by the
hemisphere letters (n for latitude strictly above 0 else s, e for longitude
strictly above 0 else w), the degree rule (truncate toward zero, and when
the truncated value is at most 0 replace it by -(truncated - 1)), rendered
as latitude on 2 digits and longitude on 3, prefixed by the data directory;
in particular the origin (-3.2, -48.2) yields s49_w004_1arc_v3.dt2. -/
theorem c5_filename_derivation (dataDir : String) (lon lat : ℚ) :
    tileFileName dataDir lon lat =
      dataDir ++ (String.singleton (if lat > 0 then 'n' else 's')
        ++ zeroPad 2 (if ctrunc lat ≤ 0 then -(ctrunc lat - 1) else ctrunc lat) ++ "_"
        ++ String.singleton (if lon > 0 then 'e' else 'w')
        ++ zeroPad 3 (if ctrunc lon ≤ 0 then -(ctrunc lon - 1) else ctrunc lon)
        ++ "_1arc_v3.dt2") ∧
    tileFileName dataDir (-3.2) (-48.2) = dataDir ++ "s49_w004_1arc_v3.dt2" := by
  constructor
  · have hdeg : ∀ q : ℚ, degreeOf q =
        (if ctrunc q ≤ 0 then -(ctrunc q - 1) else ctrunc q) := by
      intro q
      simp only [degreeOf]
      by_cases hq : ctrunc q ≤ 0
      · rw [if_neg (by omega), if_pos hq]
      · rw [if_pos (by omega), if_neg hq]
    simp only [tileFileName, hemiLat, hemiLon, hdeg]
  · simp only [tileFileName]
    have hclat : ctrunc (-48.2 : ℚ) = -48 := by
      have h1 : ((-48.2 : ℚ)).num = -241 := by norm_num
      have h2 : ((-48.2 : ℚ)).den = 5 := by norm_num
      rw [ctrunc, h1, h2]
      decide
    have hclon : ctrunc (-3.2 : ℚ) = -3 := by
      have h1 : ((-3.2 : ℚ)).num = -16 := by norm_num
      have h2 : ((-3.2 : ℚ)).den = 5 := by norm_num
      rw [ctrunc, h1, h2]
      decide
    have hdl : degreeOf (-48.2 : ℚ) = 49 := by
      simp only [degreeOf, hclat]
      decide
    have hdo : degreeOf (-3.2 : ℚ) = 4 := by
      simp only [degreeOf, hclon]
      decide
    have hhl : hemiLat (-48.2 : ℚ) = 's' := by
      simp only [hemiLat]
      rw [if_neg (by norm_num)]
    have hho : hemiLon (-3.2 : ℚ) = 'w' := by
      simp only [hemiLon]
      rw [if_neg (by norm_num)]
    rw [hhl, hho, hdl, hdo]
    exact congrArg (fun s => dataDir ++ s) (by decide)

deriving instance DecidableEq for Except

/-- Claim C6: when createSpace succeeds, the returned Space has exactly the
center slot SIZE_SPACE / 2 populated with a tile and every other slot
empty; when the decode inside fails, no Space is returned and the error
propagates. -/
theorem c6_center_slot_only (sz : Nat) (fs : String → DtedFile) (dataDir : String)
    (lon lat : ℚ) (hsz : 0 < sz) :
    (∀ s, initSpace sz fs dataDir lon lat = Except.ok s →
      s.tiles.length = sz ∧
      (∃ t, s.tiles[sz / 2]? = some (some t)) ∧
      (∀ k, k < sz → k ≠ sz / 2 → s.tiles[k]? = some none)) ∧
    (∀ e, openTile (fs (tileFileName dataDir lon lat)) = Except.error e →
      initSpace sz fs dataDir lon lat = Except.error e) := by
  have hc : sz / 2 < sz := Nat.div_lt_self hsz (by decide)
  constructor
  · intro s hs
    unfold initSpace at hs
    cases hres : openTile (fs (tileFileName dataDir lon lat)) with
    | error e =>
      rw [hres] at hs
      simp at hs
    | ok t =>
      rw [hres] at hs
      simp only [Except.ok.injEq] at hs
      subst hs
      refine ⟨?_, ⟨t, ?_⟩, ?_⟩
      · simp
      · rw [List.getElem?_set_self (by simp [hc])]
      · intro k hk hne
        rw [List.getElem?_set_ne (fun heq => hne heq.symm),
          List.getElem?_replicate_of_lt hk]
  · intro e he
    unfold initSpace
    rw [he]

/-- Witness for claim C6 with grid size 9 and a file system serving the
one-byte-too-long file for every name: the decode fails with the size
mismatch and createSpace propagates it, returning no Space. -/
theorem c6_center_slot_only_witness :
    0 < 9 ∧
    initSpace 9 (fun _ => badFile) "dted/" 0 0 =
      Except.error (DecodeError.sizeMismatchError 3442 3443) :=
  ⟨by decide,
    (c6_center_slot_only 9 (fun _ => badFile) "dted/" 0 0 (by decide)).2
      (DecodeError.sizeMismatchError 3442 3443) (by decide)⟩

/-- Claim C7, counterexample: on the size-mismatch exit path of openTile
the file handle is not closed; the run on the one-byte-too-long file ends
in the error with the close flag false, refuting closure on every exit
path. -/
theorem c7_counterexample_error_path_skips_close :
    (openTileRun badFile).1 =
      Except.error (DecodeError.sizeMismatchError 3442 3443) ∧
    (openTileRun badFile).2 = false := by
  decide

/-- Claim C7 (amended): the fclose at the end of openTile runs exactly on
the successful exit; every error exit goes through errPrintf, which leaves
the operation without closing the handle (the process terminates and the
operating system reclaims it). -/
theorem c7_close_iff_success (f : DtedFile) :
    ((∃ t, (openTileRun f).1 = Except.ok t) → (openTileRun f).2 = true) ∧
    ((∃ e, (openTileRun f).1 = Except.error e) → (openTileRun f).2 = false) := by
  unfold openTileRun
  by_cases hm : (f.size : Int) ≠ expectedSize (nbLatOf f) (nbLonOf f)
  · rw [if_pos hm]
    exact ⟨fun ⟨t, ht⟩ => by simp at ht, fun _ => rfl⟩
  · rw [if_neg hm]
    exact ⟨fun _ => rfl, fun ⟨e, he⟩ => by simp at he⟩

/-- Witness for claim C7 on the error side: the run on the bad file ends in
an error and the close flag is false. -/
theorem c7_close_iff_success_witness :
    (∃ e, (openTileRun badFile).1 = Except.error e) ∧
    (openTileRun badFile).2 = false :=
  ⟨⟨DecodeError.sizeMismatchError 3442 3443, by decide⟩,
    (c7_close_iff_success badFile).2
      ⟨DecodeError.sizeMismatchError 3442 3443, by decide⟩⟩
